import Mathlib

/-!
# Verification of the Calico Neutron agent reconciliation loop

Shallow embedding of `src/calico/agent/calico_neutron_agent.py`.

External effects (command execution via `utils.execute`, control-plane RPC,
`os.listdir`) are modelled by explicit "world" structures giving each command
its observable result.  A command run with a checked exit code
(`check_exit_code` left at its default) raises on failure; this is modelled
with `Except`, where `.error` is an escaping exception.  Commands run with
`check_exit_code=False, return_stderr=True` report their stderr as a string
and never raise.
-/

set_option linter.unusedVariables false

/-- `leadsChars pat s` is true when `pat` occurs at the start of `s`
(character-list version). -/
def leadsChars : List Char → List Char → Bool
  | [], _ => true
  | _ :: _, [] => false
  | a :: as, b :: bs => a == b && leadsChars as bs

/-- `containsChars pat s`: `pat` occurs contiguously somewhere in `s`. -/
def containsChars (pat : List Char) : List Char → Bool
  | [] => leadsChars pat []
  | c :: t => leadsChars pat (c :: t) || containsChars pat t

/-- Python's substring test `pat in s`. -/
def strContains (s pat : String) : Bool :=
  containsChars pat.toList s.toList

/-- Model of `netaddr.valid_ipv6` on well-formed address strings: a textual
IPv6 address contains a colon, a textual IPv4 address does not. -/
def valid_ipv6 (s : String) : Bool :=
  s.toList.contains ':'

/-- One element of a port's `fixed_ips` list (the code reads only
`ip_address`; `subnet_id` is carried for fidelity to the dict shape). -/
structure IpData where
  ip_address : String
  subnet_id : String
deriving DecidableEq

/-- OS commands issued by `CalicoManager` (argument shapes from the source). -/
inductive Cmd where
  | routeAdd (ip dev : String)
  | neighAdd (ip mac dev : String)
  | proxyArpEnable (dev : String)
  | arpSet (ip mac : String)
  | localRoutingEnable (dev : String)
  | routeDel (ip dev : String)
  | proxyArpDisable (dev : String)
  | localRoutingDisable (dev : String)
  | arpDel (ip dev : String)
deriving DecidableEq, BEq

/-- Results the host environment gives to each command `CalicoManager` can
issue.  Every command except `ip route add`, `ip route del` and `arp -d`
(which pass `check_exit_code=False`) runs with the default checked exit
code and raises on nonzero exit.  So `ip -6 neigh add`, `arp -s`,
`neutron-disable-proxy-arp` and `neutron-disable-local-routing` report
success as a `Bool` (false = nonzero exit, which raises), while
`neutron-enable-proxy-arp` and `neutron-enable-local-routing` either raise
(`.error`, nonzero exit) or return their stdout (`.ok`), which the caller
then string-checks.  The unchecked commands report their stderr. -/
structure RouteWorld where
  routeAddStderr : String → String → String
  neighAddOk : String → String → String → Bool
  proxyArpEnableOut : String → Except Unit String
  arpSetOk : String → String → Bool
  localRoutingEnableOut : String → Except Unit String
  routeDelStderr : String → String → String
  proxyArpDisableOk : String → Bool
  localRoutingDisableOk : String → Bool
  arpDelStderr : String → String → String

/-- `CalicoManager.get_tap_device_name`: the fixed leading marker `"tap"`
plus the first 11 characters of the interface id (`interface_id[0:11]`). -/
def get_tap_device_name (interface_id : String) : String :=
  "tap" ++ String.mk (interface_id.toList.take 11)

/-- Loop of `CalicoManager.add_static_route`, threading the running `result`
boolean exactly as the source's `result &= ...` does.  Returns the commands
issued (in order) and either the final result or an escaping exception from a
checked command. -/
def add_static_route_go (w : RouteWorld) (tap mac : String) :
    List IpData → Bool → List Cmd × Except Unit Bool
  | [], result => ([], .ok result)
  | ipd :: rest, result =>
    let ip := ipd.ip_address
    let routeErr := w.routeAddStderr ip tap
    let r1 := result && ((routeErr == "") || strContains routeErr "File exists")
    if valid_ipv6 ip then
      if w.neighAddOk ip mac tap then
        match w.localRoutingEnableOut tap with
        | .error _ =>
          ([Cmd.routeAdd ip tap, Cmd.neighAdd ip mac tap,
            Cmd.localRoutingEnable tap], .error ())
        | .ok localOut =>
          let r2 := r1 && strContains localOut "Enabled local routing"
          let next := add_static_route_go w tap mac rest r2
          (Cmd.routeAdd ip tap :: Cmd.neighAdd ip mac tap ::
             Cmd.localRoutingEnable tap :: next.1, next.2)
      else
        ([Cmd.routeAdd ip tap, Cmd.neighAdd ip mac tap], .error ())
    else
      match w.proxyArpEnableOut tap with
      | .error _ => ([Cmd.routeAdd ip tap, Cmd.proxyArpEnable tap], .error ())
      | .ok proxyOut =>
        let r2 := r1 && strContains proxyOut "Enabled proxy arp"
        if w.arpSetOk ip mac then
          match w.localRoutingEnableOut tap with
          | .error _ =>
            ([Cmd.routeAdd ip tap, Cmd.proxyArpEnable tap, Cmd.arpSet ip mac,
              Cmd.localRoutingEnable tap], .error ())
          | .ok localOut =>
            let r3 := r2 && strContains localOut "Enabled local routing"
            let next := add_static_route_go w tap mac rest r3
            (Cmd.routeAdd ip tap :: Cmd.proxyArpEnable tap :: Cmd.arpSet ip mac ::
               Cmd.localRoutingEnable tap :: next.1, next.2)
        else
          ([Cmd.routeAdd ip tap, Cmd.proxyArpEnable tap, Cmd.arpSet ip mac], .error ())

/-- `CalicoManager.add_static_route` (`result` starts at `True`). -/
def add_static_route (w : RouteWorld) (tap_device_name : String)
    (fixed_ips : List IpData) (mac_address : String) : List Cmd × Except Unit Bool :=
  add_static_route_go w tap_device_name mac_address fixed_ips true

/-- Loop of `CalicoManager.remove_static_route`.  `ip route del` and
`arp -d` run with `check_exit_code=False` (stderr only warned about); the two
disable helpers run checked and raise on failure. -/
def remove_static_route_go (w : RouteWorld) (tap : String) :
    List IpData → List Cmd × Except Unit Bool
  | [] => ([], .ok true)
  | ipd :: rest =>
    let ip := ipd.ip_address
    if w.proxyArpDisableOk tap then
      if w.localRoutingDisableOk tap then
        let next := remove_static_route_go w tap rest
        (Cmd.routeDel ip tap :: Cmd.proxyArpDisable tap ::
           Cmd.localRoutingDisable tap :: Cmd.arpDel ip tap :: next.1, next.2)
      else
        ([Cmd.routeDel ip tap, Cmd.proxyArpDisable tap, Cmd.localRoutingDisable tap],
         .error ())
    else
      ([Cmd.routeDel ip tap, Cmd.proxyArpDisable tap], .error ())

/-- `CalicoManager.remove_static_route`; the source keeps `mac_address` "for
symmetry" and never reads it. -/
def remove_static_route (w : RouteWorld) (tap_device_name : String)
    (fixed_ips : List IpData) (mac_address : String) : List Cmd × Except Unit Bool :=
  remove_static_route_go w tap_device_name fixed_ips

/-- `CalicoManager.add_interface`. -/
def add_interface (w : RouteWorld) (network_id : String) (network_type : Option String)
    (physical_network : String) (segmentation_id : Option String) (port_id : String)
    (fixed_ips : List IpData) (mac_address : String) : List Cmd × Except Unit Bool :=
  add_static_route w (get_tap_device_name port_id) fixed_ips mac_address

/-- `CalicoManager.remove_interface`. -/
def remove_interface (w : RouteWorld) (network_id : String) (network_type : Option String)
    (physical_network : String) (segmentation_id : Option String) (port_id : String)
    (fixed_ips : List IpData) (mac_address : String) : List Cmd × Except Unit Bool :=
  remove_static_route w (get_tap_device_name port_id) fixed_ips mac_address

/-- String check on the stdout of a checked enable helper: false when the
helper raised, else the substring test on its output. -/
def enableOutContains (r : Except Unit String) (pat : String) : Bool :=
  match r with
  | .error _ => false
  | .ok out => strContains out pat

/-- The per-binding sub-operations that the source aggregates into `result`
(by string checks on helper stdout), as one boolean. -/
def bindingChecksOk (w : RouteWorld) (tap : String) (ipd : IpData) : Bool :=
  ((w.routeAddStderr ipd.ip_address tap == "")
      || strContains (w.routeAddStderr ipd.ip_address tap) "File exists")
  && (if valid_ipv6 ipd.ip_address then true
      else enableOutContains (w.proxyArpEnableOut tap) "Enabled proxy arp")
  && enableOutContains (w.localRoutingEnableOut tap) "Enabled local routing"

/-- The per-binding sub-operations that are run with a checked exit code and
raise (rather than turn `result` false) when they exit nonzero: the IPv6
neighbor add or the IPv4 proxy-ARP enable and static ARP add, plus the
local-routing enable in both branches. -/
def bindingNoRaise (w : RouteWorld) (tap mac : String) (ipd : IpData) : Bool :=
  (if valid_ipv6 ipd.ip_address then w.neighAddOk ipd.ip_address mac tap
   else (w.proxyArpEnableOut tap).isOk && w.arpSetOk ipd.ip_address mac)
  && (w.localRoutingEnableOut tap).isOk

/-- "Every sub-operation succeeded" for one (IP, subnet) binding: route add
with empty or "File exists" stderr; the IPv6 neighbor add (IPv6 bindings) or
the proxy-ARP enable — exiting cleanly with "Enabled proxy arp" in its
output — and static ARP add (IPv4 bindings); local-routing enable exiting
cleanly with "Enabled local routing" in its output. -/
def SubOpsOk (w : RouteWorld) (tap mac : String) (ipd : IpData) : Prop :=
  (w.routeAddStderr ipd.ip_address tap = ""
     ∨ strContains (w.routeAddStderr ipd.ip_address tap) "File exists" = true)
  ∧ (valid_ipv6 ipd.ip_address = true → w.neighAddOk ipd.ip_address mac tap = true)
  ∧ (valid_ipv6 ipd.ip_address = false →
       (∃ out, w.proxyArpEnableOut tap = .ok out
          ∧ strContains out "Enabled proxy arp" = true)
         ∧ w.arpSetOk ipd.ip_address mac = true)
  ∧ (∃ out, w.localRoutingEnableOut tap = .ok out
       ∧ strContains out "Enabled local routing" = true)

lemma subOpsOk_iff (w : RouteWorld) (tap mac : String) (ipd : IpData) :
    SubOpsOk w tap mac ipd
      ↔ bindingNoRaise w tap mac ipd = true ∧ bindingChecksOk w tap ipd = true := by
  unfold SubOpsOk bindingNoRaise bindingChecksOk
  cases hv : valid_ipv6 ipd.ip_address <;>
    cases hp : w.proxyArpEnableOut tap <;>
    cases hl : w.localRoutingEnableOut tap <;>
    simp [hv, hp, hl, enableOutContains, Except.isOk, Bool.and_eq_true,
      Bool.or_eq_true, beq_iff_eq] <;> tauto

lemma add_go_no_raise (w : RouteWorld) (tap mac : String) :
    ∀ (ips : List IpData) (acc : Bool),
      (∀ ipd ∈ ips, bindingNoRaise w tap mac ipd = true) →
      (add_static_route_go w tap mac ips acc).2
        = .ok (acc && ips.all (bindingChecksOk w tap)) := by
  intro ips
  induction ips with
  | nil => intro acc h; simp [add_static_route_go]
  | cons ipd rest ih =>
    intro acc h
    have hhead := h ipd (by simp)
    have htail : ∀ x ∈ rest, bindingNoRaise w tap mac x = true := by
      intro x hx; exact h x (by simp [hx])
    unfold bindingNoRaise at hhead
    rw [Bool.and_eq_true] at hhead
    obtain ⟨hfirst, hlocOk⟩ := hhead
    cases hl : w.localRoutingEnableOut tap with
    | error e => rw [hl] at hlocOk; simp [Except.toBool] at hlocOk
    | ok localOut =>
      cases hv : valid_ipv6 ipd.ip_address with
      | true =>
        simp only [hv, if_true] at hfirst
        simp only [add_static_route_go, hv, hfirst, if_true, hl]
        rw [ih _ htail]
        simp [bindingChecksOk, enableOutContains, hv, hl, Bool.and_assoc]
      | false =>
        simp only [hv, Bool.false_eq_true, if_false] at hfirst
        rw [Bool.and_eq_true] at hfirst
        obtain ⟨hpOk, haOk⟩ := hfirst
        cases hp : w.proxyArpEnableOut tap with
        | error e => rw [hp] at hpOk; simp [Except.toBool] at hpOk
        | ok proxyOut =>
          simp only [add_static_route_go, hv, Bool.false_eq_true, if_false, hp,
            haOk, if_true, hl]
          rw [ih _ htail]
          simp [bindingChecksOk, enableOutContains, hv, hp, hl, Bool.and_assoc]

lemma add_go_raise (w : RouteWorld) (tap mac : String) :
    ∀ (ips : List IpData) (acc : Bool),
      (∃ ipd ∈ ips, bindingNoRaise w tap mac ipd = false) →
      (add_static_route_go w tap mac ips acc).2 = .error () := by
  intro ips
  induction ips with
  | nil => intro acc h; simp at h
  | cons ipd rest ih =>
    intro acc h
    cases hhead : bindingNoRaise w tap mac ipd with
    | true =>
      have htail : ∃ x ∈ rest, bindingNoRaise w tap mac x = false := by
        rcases h with ⟨x, hx, hxf⟩
        rcases List.mem_cons.mp hx with rfl | hx2
        · rw [hhead] at hxf; cases hxf
        · exact ⟨x, hx2, hxf⟩
      unfold bindingNoRaise at hhead
      rw [Bool.and_eq_true] at hhead
      obtain ⟨hfirst, hlocOk⟩ := hhead
      cases hl : w.localRoutingEnableOut tap with
      | error e => rw [hl] at hlocOk; simp [Except.toBool] at hlocOk
      | ok localOut =>
        cases hv : valid_ipv6 ipd.ip_address with
        | true =>
          simp only [hv, if_true] at hfirst
          simp only [add_static_route_go, hv, hfirst, if_true, hl]
          exact ih _ htail
        | false =>
          simp only [hv, Bool.false_eq_true, if_false] at hfirst
          rw [Bool.and_eq_true] at hfirst
          obtain ⟨hpOk, haOk⟩ := hfirst
          cases hp : w.proxyArpEnableOut tap with
          | error e => rw [hp] at hpOk; simp [Except.toBool] at hpOk
          | ok proxyOut =>
            simp only [add_static_route_go, hv, Bool.false_eq_true, if_false, hp,
              haOk, if_true, hl]
            exact ih _ htail
    | false =>
      unfold bindingNoRaise at hhead
      cases hv : valid_ipv6 ipd.ip_address with
      | true =>
        simp only [hv, if_true] at hhead
        cases hn : w.neighAddOk ipd.ip_address mac tap with
        | false => simp [add_static_route_go, hv, hn]
        | true =>
          simp only [hn, Bool.true_and] at hhead
          cases hl : w.localRoutingEnableOut tap with
          | error e => simp [add_static_route_go, hv, hn, hl]
          | ok out => simp [hl, Except.toBool] at hhead
      | false =>
        simp only [hv, Bool.false_eq_true, if_false] at hhead
        cases hp : w.proxyArpEnableOut tap with
        | error e => simp [add_static_route_go, hv, hp]
        | ok proxyOut =>
          simp only [hp, Except.toBool, Bool.true_and] at hhead
          cases ha : w.arpSetOk ipd.ip_address mac with
          | false => simp [add_static_route_go, hv, hp, ha]
          | true =>
            simp only [ha, Bool.true_and] at hhead
            cases hl : w.localRoutingEnableOut tap with
            | error e => simp [add_static_route_go, hv, hp, ha, hl]
            | ok out => simp [hl, Except.toBool] at hhead

/-- Claim C3: `add_static_route` (the configurator's apply operation) returns
`True` iff every sub-operation for every (IP, subnet) binding succeeded: the
route add's stderr is empty or contains "File exists", the IPv6 neighbor add
succeeds for IPv6 bindings, the proxy-ARP enable exits cleanly with output
containing "Enabled proxy arp" and the static ARP add succeeds for IPv4
bindings, and the local-routing enable exits cleanly with output containing
"Enabled local routing".  Moreover, when no checked command raises (neighbor
add, ARP add and the two enable helpers, all run with a checked exit code,
exit zero), the result is exactly the AND of the per-binding string checks on
helper stdout, so one failed check on one binding makes the whole outcome
`False` even if all other bindings succeeded. -/
theorem add_static_route_outcome (w : RouteWorld) (tap : String)
    (ips : List IpData) (mac : String) :
    ((add_static_route w tap ips mac).2 = Except.ok true
       ↔ ∀ ipd ∈ ips, SubOpsOk w tap mac ipd)
    ∧ ((∀ ipd ∈ ips, bindingNoRaise w tap mac ipd = true) →
        (add_static_route w tap ips mac).2
          = Except.ok (ips.all (bindingChecksOk w tap))) := by
  constructor
  · constructor
    · intro hok
      have hnr : ∀ ipd ∈ ips, bindingNoRaise w tap mac ipd = true := by
        by_contra hc
        push_neg at hc
        rcases hc with ⟨x, hx, hxf⟩
        have hxf2 : bindingNoRaise w tap mac x = false := by
          cases hb : bindingNoRaise w tap mac x
          · rfl
          · exact absurd hb hxf
        have := add_go_raise w tap mac ips true ⟨x, hx, hxf2⟩
        rw [add_static_route] at hok
        rw [this] at hok
        cases hok
      have hval := add_go_no_raise w tap mac ips true hnr
      rw [add_static_route] at hok
      rw [hval] at hok
      have hall : (true && ips.all (bindingChecksOk w tap)) = true :=
        Except.ok.inj hok
      rw [Bool.true_and] at hall
      intro ipd hmem
      exact (subOpsOk_iff w tap mac ipd).mpr
        ⟨hnr ipd hmem, List.all_eq_true.mp hall ipd hmem⟩
    · intro h
      have hnr : ∀ ipd ∈ ips, bindingNoRaise w tap mac ipd = true := by
        intro ipd hmem
        exact ((subOpsOk_iff w tap mac ipd).mp (h ipd hmem)).1
      have hck : ips.all (bindingChecksOk w tap) = true := by
        refine List.all_eq_true.mpr ?_
        intro ipd hmem
        exact ((subOpsOk_iff w tap mac ipd).mp (h ipd hmem)).2
      rw [add_static_route, add_go_no_raise w tap mac ips true hnr, hck,
        Bool.and_true]
  · intro hnr
    rw [add_static_route, add_go_no_raise w tap mac ips true hnr, Bool.true_and]

/-- A binding whose route-add fails outright (stderr neither empty nor
containing "File exists"). -/
def ipdC3 : IpData := ⟨"10.65.0.2", "subnet-1"⟩

/-- A world where the route add fails but every other sub-operation
succeeds. -/
def wC3 : RouteWorld where
  routeAddStderr := fun _ _ => "RTNETLINK answers: Network is unreachable"
  neighAddOk := fun _ _ _ => true
  proxyArpEnableOut := fun dev => .ok ("Enabled proxy arp on " ++ dev)
  arpSetOk := fun _ _ => true
  localRoutingEnableOut := fun dev => .ok ("Enabled local routing on " ++ dev)
  routeDelStderr := fun _ _ => ""
  proxyArpDisableOk := fun _ => true
  localRoutingDisableOk := fun _ => true
  arpDelStderr := fun _ _ => ""

/-- Witness for C3: at the concrete failing world `wC3`, the outcome is
`ok false`. -/
theorem add_static_route_outcome_witness :
    (add_static_route wC3 "tapT" [ipdC3] "fe:16:3e:01:02:03").2
      = Except.ok false := by
  have h := (add_static_route_outcome wC3 "tapT" [ipdC3] "fe:16:3e:01:02:03").2
    (by decide)
  have hall : ([ipdC3].all (bindingChecksOk wC3 "tapT")) = false := by decide
  rw [hall] at h
  exact h

/-- Claim C9: the removal operation ignores its `mac_address` parameter
entirely: for any two MAC arguments both the sequence of cleanup commands and
the returned value coincide, at the `remove_static_route` level and at the
`remove_interface` level. -/
theorem remove_mac_irrelevant (w : RouteWorld) (tap : String) (ips : List IpData)
    (nid : String) (nt : Option String) (pn : String) (sid : Option String)
    (pid : String) (mac1 mac2 : String) :
    remove_static_route w tap ips mac1 = remove_static_route w tap ips mac2
    ∧ remove_interface w nid nt pn sid pid ips mac1
        = remove_interface w nid nt pn sid pid ips mac2 :=
  ⟨rfl, rfl⟩

/-- Claim C10: on an empty bindings list both `add_static_route` and
`remove_static_route` issue no commands and return success. -/
theorem empty_bindings_vacuous (w : RouteWorld) (tap mac : String) :
    add_static_route w tap [] mac = ([], Except.ok true)
    ∧ remove_static_route w tap [] mac = ([], Except.ok true) :=
  ⟨rfl, rfl⟩

/-- A world in which the proxy-ARP disable helper exits nonzero (its
execution is checked, so it raises) while routes and ARP entries are merely
absent. -/
def wC7 : RouteWorld :=
  { wC3 with proxyArpDisableOk := fun _ => false }

/-- Counterexample for C9-adjacent claim C7: `remove_static_route` does raise
when a cleanup sub-step (here the checked proxy-ARP disable helper) fails, so
it does not always return success to its caller. -/
theorem remove_static_route_raises_cex :
    (remove_static_route wC7 "tapT" [ipdC3] "fe:16:3e:01:02:03").2
      = Except.error () := rfl

/-- Claim C7 (amended): `remove_static_route` returns success and never
raises whenever the two checked disable helpers exit cleanly, no matter what
stderr the `ip route del` and `arp -d` commands report (a missing route or
ARP entry only produces a warning); but a nonzero exit of the proxy-ARP or
local-routing disable helper raises out of the call. -/
theorem remove_static_route_permissive (w : RouteWorld) (tap : String)
    (ips : List IpData) (mac : String)
    (hp : w.proxyArpDisableOk tap = true)
    (hl : w.localRoutingDisableOk tap = true) :
    (remove_static_route w tap ips mac).2 = Except.ok true := by
  unfold remove_static_route
  induction ips with
  | nil => simp [remove_static_route_go]
  | cons ipd rest ih =>
    simp only [remove_static_route_go, hp, hl, if_true]
    exact ih

/-- A world with missing routes and ARP entries but working disable
helpers. -/
def wC7ok : RouteWorld :=
  { wC3 with
      routeDelStderr := fun _ _ => "RTNETLINK answers: No such process"
      arpDelStderr := fun _ _ => "No ARP entry for 10.65.0.2" }

/-- Witness for the amended C7: removal over a binding whose route and ARP
entry are already gone still reports success. -/
theorem remove_static_route_permissive_witness :
    (remove_static_route wC7ok "tapT" [ipdC3] "fe:16:3e:01:02:03").2
      = Except.ok true :=
  remove_static_route_permissive wC7ok "tapT" [ipdC3] "fe:16:3e:01:02:03" rfl rfl

/-- Observable calls made by `CalicoNeutronAgentRPC` during a tick: the
security-group filter hooks, control-plane RPCs, and calls into the
routing manager (`add_interface` / `remove_interface`). -/
inductive Event where
  | prepareFilter (devices : List String)
  | removeFilter (devices : List String)
  | getDetails (device : String)
  | addInterface (port_id : String)
  | removeInterface (port_id : String)
  | updateUp (device : String)
  | updateDown (device : String)
deriving DecidableEq, BEq

/-- How a tick's processing can abort: an ordinary exception (`Exception`,
caught by the daemon loop's `except Exception`) or `sys.exit` (`SystemExit`,
which is not caught and terminates the process). -/
inductive AgentErr where
  | exc
  | exit
deriving DecidableEq

/-- The fields of the port-details dict from `get_device_details` the agent
reads.  `hasPortId` models the `'port_id' in details` membership test. -/
structure DeviceDetails where
  hasPortId : Bool
  adminUp : Bool
  networkType : Option String
  segmentationId : Option String
  physicalNetwork : String
  networkId : String
  portId : String
  fixedIps : List IpData
  macAddress : String
deriving DecidableEq

/-- Reply dict of `update_device_down` (its `'exists'` entry). -/
structure DownResp where
  existed : Bool
deriving DecidableEq

/-- The agent's external collaborators: the routing world, `os.listdir` of
the tap sysfs directory, and the three plugin RPCs used by the loop
(`.error` is a raised RPC exception / timeout). -/
structure AgentWorld where
  rw : RouteWorld
  listdir : Except Unit (List String)
  getDeviceDetails : String → Except Unit DeviceDetails
  updateDeviceUp : String → Except Unit String
  updateDeviceDown : String → Except Unit DownResp

/-- `CalicoManager.get_tap_devices`: the sysfs listing filtered to names
starting with the `"tap"` marker, as a set. -/
def get_tap_devices (w : AgentWorld) : Except Unit (Finset String) :=
  match w.listdir with
  | .error e => .error e
  | .ok l => .ok (l.filter (fun device => leadsChars "tap".toList device.toList)).toFinset

/-- The device delta returned by `CalicoManager.update_devices` when the
observed set differs from the registered one. -/
structure Delta where
  current : Finset String
  added : Finset String
  removed : Finset String
deriving DecidableEq

/-- `CalicoManager.update_devices` (pure part: observed `devices` against
`registered_devices`); returns `none` when the sets are equal. -/
def update_devices (devices registered_devices : Finset String) : Option Delta :=
  if devices = registered_devices then none
  else some ⟨devices, devices \ registered_devices, registered_devices \ devices⟩

/-- Body of the `for device in devices` loop of `treat_devices_added` for a
single device, carrying the running `resync` flag.  A failed
`get_device_details` sets `resync` and `continue`s; a missing/falsy
`network_type` is `sys.exit(1)`; a raising `add_interface` or status report
escapes as an exception. -/
def treatAddedStep (w : AgentWorld) (device : String) (resync : Bool) :
    List Event × Except AgentErr Bool :=
  match w.getDeviceDetails device with
  | .error _ => ([.getDetails device], .ok true)
  | .ok det =>
    if det.hasPortId then
      if det.adminUp then
        match det.networkType with
        | none => ([.getDetails device], .error .exit)
        | some _ =>
          match (add_interface w.rw det.networkId det.networkType det.physicalNetwork
              det.segmentationId det.portId det.fixedIps det.macAddress).2 with
          | .error _ => ([.getDetails device, .addInterface det.portId], .error .exc)
          | .ok true =>
            match w.updateDeviceUp device with
            | .error _ =>
                ([.getDetails device, .addInterface det.portId, .updateUp device],
                 .error .exc)
            | .ok _ =>
                ([.getDetails device, .addInterface det.portId, .updateUp device],
                 .ok resync)
          | .ok false =>
            match w.updateDeviceDown device with
            | .error _ =>
                ([.getDetails device, .addInterface det.portId, .updateDown device],
                 .error .exc)
            | .ok _ =>
                ([.getDetails device, .addInterface det.portId, .updateDown device],
                 .ok resync)
      else ([.getDetails device], .ok resync)
    else ([.getDetails device], .ok resync)

/-- The `for device in devices` loop of `treat_devices_added`. -/
def treatAddedGo (w : AgentWorld) : List String → Bool → List Event × Except AgentErr Bool
  | [], resync => ([], .ok resync)
  | device :: rest, resync =>
    match (treatAddedStep w device resync).2 with
    | .error e => ((treatAddedStep w device resync).1, .error e)
    | .ok r2 =>
      ((treatAddedStep w device resync).1 ++ (treatAddedGo w rest r2).1,
       (treatAddedGo w rest r2).2)

/-- `CalicoNeutronAgentRPC.treat_devices_added` (iteration order over the
added set supplied as a list; the source iterates a Python set in
unspecified order). -/
def treat_devices_added (w : AgentWorld) (devices : List String) :
    List Event × Except AgentErr Bool :=
  ((Event.prepareFilter devices) :: (treatAddedGo w devices false).1,
   (treatAddedGo w devices false).2)

/-- The `for device in devices` loop of `treat_devices_removed`: each device
gets an `update_device_down` call whose failure is caught and sets
`resync`. -/
def treatRemovedGo (w : AgentWorld) : List String → Bool → List Event × Bool
  | [], resync => ([], resync)
  | device :: rest, resync =>
    match w.updateDeviceDown device with
    | .error _ =>
      (Event.updateDown device :: (treatRemovedGo w rest true).1,
       (treatRemovedGo w rest true).2)
    | .ok _ =>
      (Event.updateDown device :: (treatRemovedGo w rest resync).1,
       (treatRemovedGo w rest resync).2)

/-- `CalicoNeutronAgentRPC.treat_devices_removed`.  Note: it reports each
removed device down but never calls the routing manager's
`remove_interface`. -/
def treat_devices_removed (w : AgentWorld) (devices : List String) :
    List Event × Bool :=
  ((Event.removeFilter devices) :: (treatRemovedGo w devices false).1,
   (treatRemovedGo w devices false).2)

/-- `CalicoNeutronAgentRPC.process_network_devices`: added first, then
removed; resync flags are or-ed.  Set iteration is linearised in sorted
order. -/
def process_network_devices (w : AgentWorld) (d : Delta) :
    List Event × Except AgentErr Bool :=
  match (treat_devices_added w (d.added.sort (· ≤ ·))).2 with
  | .error e => ((treat_devices_added w (d.added.sort (· ≤ ·))).1, .error e)
  | .ok resync_a =>
    ((treat_devices_added w (d.added.sort (· ≤ ·))).1
       ++ (treat_devices_removed w (d.removed.sort (· ≤ ·))).1,
     .ok (resync_a || (treat_devices_removed w (d.removed.sort (· ≤ ·))).2))

/-- The loop-local state of `daemon_loop`: the `sync` flag and the known
device set. -/
structure LoopState where
  sync : Bool
  devices : Finset String
deriving DecidableEq

/-- The known set a tick works with: cleared on entry when `sync` was set
(the RESYNCING state), otherwise last tick's set. -/
def tickKnown (s : LoopState) : Finset String :=
  if s.sync then ∅ else s.devices

/-- One iteration of `daemon_loop` (timing/sleeping elided).  `.error ()` is
an escaping `SystemExit`; every ordinary exception is caught inside and turns
into `sync = true`. -/
def daemon_loop_tick (w : AgentWorld) (s : LoopState) :
    Except Unit (LoopState × List Event) :=
  match get_tap_devices w with
  | .error _ => .ok (⟨true, tickKnown s⟩, [])
  | .ok current =>
    match update_devices current (tickKnown s) with
    | none => .ok (⟨false, tickKnown s⟩, [])
    | some d =>
      match (process_network_devices w d).2 with
      | .ok resync => .ok (⟨resync, d.current⟩, (process_network_devices w d).1)
      | .error .exc => .ok (⟨true, tickKnown s⟩, (process_network_devices w d).1)
      | .error .exit => .error ()

/-- Claim C4: for all device sets A (known) and B (current), the delta
`update_devices` computes satisfies `added = B − A`, `removed = A − B`, and
`(A ∪ added) − removed == B`. -/
theorem update_devices_delta (A B : Finset String) (d : Delta)
    (h : update_devices B A = some d) :
    d.added = B \ A ∧ d.removed = A \ B ∧ (A ∪ d.added) \ d.removed = B := by
  unfold update_devices at h
  by_cases hEq : B = A
  · rw [if_pos hEq] at h; cases h
  · rw [if_neg hEq] at h
    have h2 := Option.some.inj h
    subst h2
    refine ⟨rfl, rfl, ?_⟩
    ext x
    simp only [Finset.mem_sdiff, Finset.mem_union]
    tauto

/-- Witness for C4 at A = {"tapX"}, B = {"tapY"}. -/
theorem update_devices_delta_witness :
    (Delta.added ⟨{"tapY"}, {"tapY"} \ {"tapX"}, {"tapX"} \ {"tapY"}⟩
        = ({"tapY"} : Finset String) \ {"tapX"})
    ∧ (Delta.removed ⟨{"tapY"}, {"tapY"} \ {"tapX"}, {"tapX"} \ {"tapY"}⟩
        = ({"tapX"} : Finset String) \ {"tapY"})
    ∧ ({"tapX"}
         ∪ Delta.added ⟨{"tapY"}, {"tapY"} \ {"tapX"}, {"tapX"} \ {"tapY"}⟩)
        \ Delta.removed ⟨{"tapY"}, {"tapY"} \ {"tapX"}, {"tapX"} \ {"tapY"}⟩
        = {"tapY"} :=
  update_devices_delta {"tapX"} {"tapY"}
    ⟨{"tapY"}, {"tapY"} \ {"tapX"}, {"tapX"} \ {"tapY"}⟩
    (by unfold update_devices; rw [if_neg (by decide)])

/-- Claim C5: when a tick starts in the RESYNCING state (`sync` set), the
known set it works with is cleared, so against any non-empty observed set `C`
the delta is a full rediscovery: `removed = ∅` and `added = current = C`. -/
theorem resync_clears_and_full_delta (s : LoopState) (C : Finset String)
    (hs : s.sync = true) (hC : C ≠ ∅) :
    tickKnown s = ∅ ∧ update_devices C (tickKnown s) = some ⟨C, C, ∅⟩ := by
  have hk : tickKnown s = ∅ := by simp [tickKnown, hs]
  refine ⟨hk, ?_⟩
  rw [hk]
  unfold update_devices
  rw [if_neg hC]
  simp

/-- Witness for C5 with a previously known device and one observed device. -/
theorem resync_clears_and_full_delta_witness :
    tickKnown ⟨true, {"tapOld"}⟩ = ∅
    ∧ update_devices {"tapA"} (tickKnown ⟨true, {"tapOld"}⟩)
        = some ⟨{"tapA"}, {"tapA"}, ∅⟩ :=
  resync_clears_and_full_delta ⟨true, {"tapOld"}⟩ {"tapA"} rfl (by decide)

lemma treatRemovedGo_trace (w : AgentWorld) :
    ∀ (devices : List String) (r : Bool),
      (treatRemovedGo w devices r).1 = devices.map Event.updateDown := by
  intro devices
  induction devices with
  | nil => intro r; rfl
  | cons d rest ih =>
    intro r
    cases h : w.updateDeviceDown d <;> simp [treatRemovedGo, h, ih]

/-- A world observing no tap device, with working control-plane RPCs. -/
def w1 : AgentWorld where
  rw := wC3
  listdir := .ok []
  getDeviceDetails := fun _ => .error ()
  updateDeviceUp := fun _ => .ok "OK"
  updateDeviceDown := fun _ => .ok ⟨true⟩

/-- Loop state in sync with known = {"tapX"}. -/
def s1 : LoopState := ⟨false, {"tapX"}⟩

lemma tick_w1_eval :
    daemon_loop_tick w1 s1
      = Except.ok (⟨false, ∅⟩,
          [Event.prepareFilter [], Event.removeFilter ["tapX"],
           Event.updateDown "tapX"]) := by
  have hcur : get_tap_devices w1 = .ok ∅ := rfl
  have hdelta : update_devices ∅ (tickKnown s1) = some ⟨∅, ∅, {"tapX"}⟩ := by decide
  have hproc : process_network_devices w1 ⟨∅, ∅, {"tapX"}⟩
      = ([Event.prepareFilter [], Event.removeFilter ["tapX"],
          Event.updateDown "tapX"], .ok false) := by
    unfold process_network_devices
    simp only [Finset.sort_empty, Finset.sort_singleton]
    rfl
  simp only [daemon_loop_tick, hcur, hdelta, hproc]

/-- Counterexample for C1: with known = {"tapX"} and current = {}, the tick
reports the interface down but performs zero `remove_interface` calls, not
the one call the claim requires: the polling loop's removal path never
invokes the routing manager. -/
theorem tick_removed_without_remove_interface_cex :
    daemon_loop_tick w1 s1
      = Except.ok (⟨false, ∅⟩,
          [Event.prepareFilter [], Event.removeFilter ["tapX"],
           Event.updateDown "tapX"])
    ∧ List.count (Event.removeInterface "tapX")
        [Event.prepareFilter [], Event.removeFilter ["tapX"],
         Event.updateDown "tapX"] = 0 :=
  ⟨tick_w1_eval, by decide⟩

/-- Claim C1 (amended): for every tick whose delta contains removed names,
the loop reports each removed interface down to the control plane
(`update_device_down`) but performs no `remove_interface` calls — removal of
host routing state is not done by the polling loop.  In the scenario
known = {"tapX"}, current = {}: one report-down for "tapX", zero
`remove_interface` calls, and resulting known = {}. -/
theorem treat_devices_removed_reports_down :
    (∀ (w : AgentWorld) (devices : List String),
       (treat_devices_removed w devices).1
         = Event.removeFilter devices :: devices.map Event.updateDown)
    ∧ daemon_loop_tick w1 s1
        = Except.ok (⟨false, ∅⟩,
            [Event.prepareFilter [], Event.removeFilter ["tapX"],
             Event.updateDown "tapX"]) := by
  constructor
  · intro w devices
    unfold treat_devices_removed
    rw [treatRemovedGo_trace]
  · exact tick_w1_eval

/-- Port details for a healthy, admin-up port with no IP bindings. -/
def detA : DeviceDetails :=
  ⟨true, true, some "flat", some "1", "physnet1", "net-1", "port-a", [],
   "fe:16:3e:00:00:01"⟩

/-- A world observing {"tapA"} whose control plane answers every lookup with
`detA` and acknowledges every status report. -/
def w2 : AgentWorld where
  rw := wC3
  listdir := .ok ["tapA"]
  getDeviceDetails := fun _ => .ok detA
  updateDeviceUp := fun _ => .ok "OK"
  updateDeviceDown := fun _ => .ok ⟨true⟩

/-- Loop state in sync with known = {"tapB"}: the next tick has both an
added name ("tapA") and a removed name ("tapB"). -/
def s2 : LoopState := ⟨false, {"tapB"}⟩

/-- The trace of the w2/s2 tick. -/
def tr2 : List Event :=
  [Event.prepareFilter ["tapA"], Event.getDetails "tapA",
   Event.addInterface "port-a", Event.updateUp "tapA",
   Event.removeFilter ["tapB"], Event.updateDown "tapB"]

lemma tick_w2_eval :
    daemon_loop_tick w2 s2 = Except.ok (⟨false, {"tapA"}⟩, tr2) := by
  have hcur : get_tap_devices w2 = .ok {"tapA"} := rfl
  have hdelta : update_devices {"tapA"} (tickKnown s2)
      = some ⟨{"tapA"}, {"tapA"}, {"tapB"}⟩ := by decide
  have hproc : process_network_devices w2 ⟨{"tapA"}, {"tapA"}, {"tapB"}⟩
      = (tr2, .ok false) := by
    unfold process_network_devices
    simp only [Finset.sort_singleton]
    rfl
  simp only [daemon_loop_tick, hcur, hdelta, hproc]

/-- Counterexample for C2: in a tick whose delta has both an added name
("tapA") and a removed name ("tapB"), the added name's processing (its
`get_device_details` lookup) happens strictly before the removal batch even
starts (`remove_devices_filter`): added is processed first, not removed. -/
theorem added_processed_before_removed_cex :
    daemon_loop_tick w2 s2 = Except.ok (⟨false, {"tapA"}⟩, tr2)
    ∧ List.indexOf (Event.getDetails "tapA") tr2
        < List.indexOf (Event.removeFilter ["tapB"]) tr2 :=
  ⟨tick_w2_eval, by decide⟩

/-- Claim C2 (amended): within a tick whose delta contains both added and
removed names, all added names are processed before any removed name:
`process_network_devices` runs the whole added batch first and, when it
completes without an escaping exception, appends the removed batch's trace
after it (resync flags or-ed). -/
theorem process_network_devices_added_first (w : AgentWorld) (d : Delta)
    (evA : List Event) (a : Bool)
    (h : treat_devices_added w (d.added.sort (· ≤ ·)) = (evA, .ok a)) :
    process_network_devices w d
      = (evA ++ (treat_devices_removed w (d.removed.sort (· ≤ ·))).1,
         .ok (a || (treat_devices_removed w (d.removed.sort (· ≤ ·))).2)) := by
  unfold process_network_devices
  rw [h]

/-- The delta of the w2/s2 tick. -/
def delta2 : Delta := ⟨{"tapA"}, {"tapA"}, {"tapB"}⟩

/-- The added-batch trace of the w2/s2 tick. -/
def evA2 : List Event :=
  [Event.prepareFilter ["tapA"], Event.getDetails "tapA",
   Event.addInterface "port-a", Event.updateUp "tapA"]

lemma treat_added_w2_eval :
    treat_devices_added w2 (delta2.added.sort (· ≤ ·)) = (evA2, .ok false) := by
  rw [show delta2.added = {"tapA"} from rfl, Finset.sort_singleton]
  rfl

/-- Witness for the amended C2 on the concrete w2 delta. -/
theorem process_network_devices_added_first_witness :
    process_network_devices w2 delta2
      = (evA2 ++ (treat_devices_removed w2 (delta2.removed.sort (· ≤ ·))).1,
         .ok (false
           || (treat_devices_removed w2 (delta2.removed.sort (· ≤ ·))).2)) :=
  process_network_devices_added_first w2 delta2 evA2 false treat_added_w2_eval

lemma treatAddedStep_true (w : AgentWorld) (d : String) (r : Bool)
    (h : (treatAddedStep w d true).2 = .ok r) : r = true := by
  unfold treatAddedStep at h
  repeat' split at h
  all_goals
    first
      | exact (Except.ok.inj h).symm
      | exact absurd h (by simp)

lemma treatAddedGo_cons_error (w : AgentWorld) (d : String) (rest : List String)
    (r : Bool) (e : AgentErr) (hstep : (treatAddedStep w d r).2 = .error e) :
    treatAddedGo w (d :: rest) r = ((treatAddedStep w d r).1, .error e) := by
  simp only [treatAddedGo]
  rw [hstep]

lemma treatAddedGo_cons_ok (w : AgentWorld) (d : String) (rest : List String)
    (r r2 : Bool) (hstep : (treatAddedStep w d r).2 = .ok r2) :
    treatAddedGo w (d :: rest) r
      = ((treatAddedStep w d r).1 ++ (treatAddedGo w rest r2).1,
         (treatAddedGo w rest r2).2) := by
  simp only [treatAddedGo]
  rw [hstep]

lemma treatAddedGo_true (w : AgentWorld) :
    ∀ (l : List String) (ev : List Event) (r : Bool),
      treatAddedGo w l true = (ev, .ok r) → r = true := by
  intro l
  induction l with
  | nil =>
    intro ev r h
    exact (Except.ok.inj (congrArg Prod.snd h)).symm
  | cons d rest ih =>
    intro ev r h
    cases hres : (treatAddedStep w d true).2 with
    | error e =>
      rw [treatAddedGo_cons_error w d rest true e hres] at h
      have hcontra : (Except.error e : Except AgentErr Bool) = Except.ok r :=
        congrArg Prod.snd h
      exact absurd hcontra (by simp)
    | ok r2 =>
      have hr2 : r2 = true := treatAddedStep_true w d r2 hres
      subst hr2
      rw [treatAddedGo_cons_ok w d rest true true hres] at h
      have h2 : (treatAddedGo w rest true).2 = Except.ok r := congrArg Prod.snd h
      cases hgo : treatAddedGo w rest true with
      | mk evr resr =>
        rw [hgo] at h2
        have h3 : resr = Except.ok r := h2
        rw [h3] at hgo
        exact ih evr r hgo

lemma treatAddedGo_append (w : AgentWorld) :
    ∀ (l1 l2 : List String) (r b1 : Bool) (ev1 : List Event),
      treatAddedGo w l1 r = (ev1, .ok b1) →
      treatAddedGo w (l1 ++ l2) r
        = (ev1 ++ (treatAddedGo w l2 b1).1, (treatAddedGo w l2 b1).2) := by
  intro l1
  induction l1 with
  | nil =>
    intro l2 r b1 ev1 h
    have h1 : ([] : List Event) = ev1 := congrArg Prod.fst h
    have h2 : (Except.ok r : Except AgentErr Bool) = Except.ok b1 :=
      congrArg Prod.snd h
    have hb : r = b1 := Except.ok.inj h2
    subst hb
    rw [List.nil_append, ← h1, List.nil_append]
  | cons d rest ih =>
    intro l2 r b1 ev1 h
    cases hstep : (treatAddedStep w d r).2 with
    | error e =>
      rw [treatAddedGo_cons_error w d rest r e hstep] at h
      have hcontra : (Except.error e : Except AgentErr Bool) = Except.ok b1 :=
        congrArg Prod.snd h
      exact absurd hcontra (by simp)
    | ok r2 =>
      rw [treatAddedGo_cons_ok w d rest r r2 hstep] at h
      have h1 : (treatAddedStep w d r).1 ++ (treatAddedGo w rest r2).1 = ev1 :=
        congrArg Prod.fst h
      have h2 : (treatAddedGo w rest r2).2 = Except.ok b1 := congrArg Prod.snd h
      cases hgo : treatAddedGo w rest r2 with
      | mk evr resr =>
        rw [hgo] at h1 h2
        have h1b : (treatAddedStep w d r).1 ++ evr = ev1 := h1
        have h2b : resr = Except.ok b1 := h2
        rw [h2b] at hgo
        rw [List.cons_append, treatAddedGo_cons_ok w d (rest ++ l2) r r2 hstep,
          ih l2 r2 b1 evr hgo, ← h1b, List.append_assoc]

/-- Claim C6: when the control-plane metadata lookup fails for a device in
the middle of an added batch, that device is skipped (its only footprint is
the lookup call — no `add_interface`, no status report), the resync flag is
forced to true for the tick, every remaining device in the batch is still
processed, and the failure is not propagated (the batch's outcome is
whatever the remaining devices produce, starting from `resync = true`). -/
theorem treat_devices_added_skips_failed (w : AgentWorld) (pre post : List String)
    (d : String) (ev1 : List Event) (b1 : Bool)
    (hd : w.getDeviceDetails d = .error ())
    (hpre : treatAddedGo w pre false = (ev1, .ok b1)) :
    treat_devices_added w (pre ++ d :: post)
      = (Event.prepareFilter (pre ++ d :: post)
           :: ev1 ++ Event.getDetails d :: (treatAddedGo w post true).1,
         (treatAddedGo w post true).2)
    ∧ (∀ b, (treatAddedGo w post true).2 = .ok b → b = true) := by
  have hstep : treatAddedStep w d b1 = ([Event.getDetails d], .ok true) := by
    unfold treatAddedStep
    rw [hd]
  have hs1 : (treatAddedStep w d b1).1 = [Event.getDetails d] := by rw [hstep]
  have hs2 : (treatAddedStep w d b1).2 = .ok true := by rw [hstep]
  have hgo : treatAddedGo w (d :: post) b1
      = (Event.getDetails d :: (treatAddedGo w post true).1,
         (treatAddedGo w post true).2) := by
    rw [treatAddedGo_cons_ok w d post b1 true hs2, hs1, List.singleton_append]
  constructor
  · unfold treat_devices_added
    rw [treatAddedGo_append w pre (d :: post) false b1 ev1 hpre, hgo]
    rfl
  · intro b hb
    cases hgop : treatAddedGo w post true with
    | mk evp resp =>
      rw [hgop] at hb
      have hb2 : resp = Except.ok b := hb
      rw [hb2] at hgop
      exact treatAddedGo_true w post evp b hgop

/-- A world where the lookup for "tapB" times out but "tapA" and "tapC"
resolve fine. -/
def w6 : AgentWorld where
  rw := wC3
  listdir := .ok []
  getDeviceDetails := fun d => if d == "tapB" then .error () else .ok detA
  updateDeviceUp := fun _ => .ok "OK"
  updateDeviceDown := fun _ => .ok ⟨true⟩

/-- Added-batch trace of a successfully processed device under `w6`. -/
def evA6 : List Event :=
  [Event.getDetails "tapA", Event.addInterface "port-a", Event.updateUp "tapA"]

/-- Witness for C6: in the batch ["tapA", "tapB", "tapC"] with "tapB"'s
lookup failing, "tapA" and "tapC" are both processed and the batch resyncs. -/
theorem treat_devices_added_skips_failed_witness :
    (treat_devices_added w6 (["tapA"] ++ "tapB" :: ["tapC"])
       = (Event.prepareFilter (["tapA"] ++ "tapB" :: ["tapC"])
            :: evA6 ++ Event.getDetails "tapB" :: (treatAddedGo w6 ["tapC"] true).1,
          (treatAddedGo w6 ["tapC"] true).2)
     ∧ (∀ b, (treatAddedGo w6 ["tapC"] true).2 = .ok b → b = true)) :=
  treat_devices_added_skips_failed w6 ["tapA"] ["tapC"] "tapB" evA6 false rfl rfl

/-- A world observing {"tapA"} where the `update_device_up` status report
raises (RPC failure). -/
def w8 : AgentWorld where
  rw := wC3
  listdir := .ok ["tapA"]
  getDeviceDetails := fun _ => .ok detA
  updateDeviceUp := fun _ => .error ()
  updateDeviceDown := fun _ => .ok ⟨true⟩

/-- Loop state in sync with an empty known set. -/
def s8 : LoopState := ⟨false, ∅⟩

lemma tick_w8_eval :
    daemon_loop_tick w8 s8
      = Except.ok (⟨true, ∅⟩,
          [Event.prepareFilter ["tapA"], Event.getDetails "tapA",
           Event.addInterface "port-a", Event.updateUp "tapA"]) := by
  have hcur : get_tap_devices w8 = .ok {"tapA"} := rfl
  have hdelta : update_devices {"tapA"} (tickKnown s8)
      = some ⟨{"tapA"}, {"tapA"}, ∅⟩ := by decide
  have hproc : process_network_devices w8 ⟨{"tapA"}, {"tapA"}, ∅⟩
      = ([Event.prepareFilter ["tapA"], Event.getDetails "tapA",
          Event.addInterface "port-a", Event.updateUp "tapA"],
         .error .exc) := by
    unfold process_network_devices
    simp only [Finset.sort_singleton]
    rfl
  simp only [daemon_loop_tick, hcur, hdelta, hproc]
  rfl

/-- Counterexample for C8: a tick with the non-empty delta added = {"tapA"}
in which the `update_device_up` status report raises does NOT set known to
current: the exception escapes `treat_devices_added`, `daemon_loop` catches
it before the `devices = device_info['current']` assignment, and known stays
{} while current was {"tapA"} (the resync flag is set instead). -/
theorem tick_known_not_set_on_report_failure_cex :
    daemon_loop_tick w8 s8
      = Except.ok (⟨true, ∅⟩,
          [Event.prepareFilter ["tapA"], Event.getDetails "tapA",
           Event.addInterface "port-a", Event.updateUp "tapA"])
    ∧ get_tap_devices w8 = .ok {"tapA"}
    ∧ (∅ : Finset String) ≠ {"tapA"} :=
  ⟨tick_w8_eval, rfl, by decide⟩

/-- Claim C8 (amended): at the end of every tick whose delta processing
returns without an escaping exception, known is set to the observed current
set regardless of individual device outcomes (lookup failures, configuration
outcomes and removal-path report failures only influence the resync flag);
but an exception escaping the added-path (such as a raising
`update_device_up` status report) is caught one level up, leaves known
unchanged and sets the resync flag. -/
theorem tick_sets_known_on_clean_processing (w : AgentWorld) (s : LoopState)
    (current : Finset String) (d : Delta) (ev : List Event) (r : Bool)
    (hcur : get_tap_devices w = .ok current)
    (hdelta : update_devices current (tickKnown s) = some d)
    (hproc : process_network_devices w d = (ev, .ok r)) :
    daemon_loop_tick w s = .ok (⟨r, d.current⟩, ev) ∧ d.current = current := by
  have hc : d.current = current := by
    unfold update_devices at hdelta
    by_cases hEq : current = tickKnown s
    · rw [if_pos hEq] at hdelta; cases hdelta
    · rw [if_neg hEq] at hdelta
      rw [← Option.some.inj hdelta]
  refine ⟨?_, hc⟩
  have hp2 : (process_network_devices w d).2 = .ok r := by rw [hproc]
  have hp1 : (process_network_devices w d).1 = ev := by rw [hproc]
  simp only [daemon_loop_tick, hcur, hdelta, hp2, hp1]

/-- A world observing {"tapA"} whose metadata lookup fails (so the tick ends
with resync = true) but raises nothing. -/
def w8b : AgentWorld where
  rw := wC3
  listdir := .ok ["tapA"]
  getDeviceDetails := fun _ => .error ()
  updateDeviceUp := fun _ => .ok "OK"
  updateDeviceDown := fun _ => .ok ⟨true⟩

/-- Delta of the w8b tick. -/
def d8b : Delta := ⟨{"tapA"}, {"tapA"}, ∅⟩

/-- Trace of the w8b tick. -/
def ev8b : List Event :=
  [Event.prepareFilter ["tapA"], Event.getDetails "tapA", Event.removeFilter []]

lemma proc_w8b_eval : process_network_devices w8b d8b = (ev8b, .ok true) := by
  unfold process_network_devices
  simp only [show d8b.added = {"tapA"} from rfl, show d8b.removed = ∅ from rfl,
    Finset.sort_singleton, Finset.sort_empty]
  rfl

/-- Witness for the amended C8: even with a failed per-device lookup (resync
true), known becomes the observed current set at the end of the tick. -/
theorem tick_sets_known_on_clean_processing_witness :
    daemon_loop_tick w8b s8 = .ok (⟨true, d8b.current⟩, ev8b)
    ∧ d8b.current = {"tapA"} :=
  tick_sets_known_on_clean_processing w8b s8 {"tapA"} d8b ev8b true rfl
    (by decide) proc_w8b_eval
